import Mathlib

/-
Verification of src/print_help.cpp.

The unit under study is the single function

    void print_help(const char *c) {
        char cmd[CMD_LEN];
        int printed = snprintf(cmd, CMD_LEN, "fish -c '__fish_print_help %s'", c);
        if (printed < CMD_LEN && system(cmd) == -1) {
            write_loop(2, HELP_ERR, std::strlen(HELP_ERR));
        }
    }

with CMD_LEN = 1024 and HELP_ERR = "Could not show help message\n".

C byte strings are embedded as `List Char`, one `Char` per byte (every byte
the unit itself manufactures is ASCII).  The two external collaborators are
passed in explicitly: the command executor (the `system` call) as a function
from the command bytes to the `Int` that `system` returns (`-1` meaning
launch failure), and the standard-error sink as the list of byte counts the
successive underlying `write` calls accept.  The observable behaviour of a
run is an effect trace: the commands handed to the executor, the buffers
handed to the reliable writer, and the individual chunks written to the
standard-error stream.
-/

namespace PrintHelp

/-- Capacity of the stack command buffer: `#define CMD_LEN 1024`. -/
def CMD_LEN : Nat := 1024

/-- Bytes of the fixed diagnostic `#define HELP_ERR "Could not show help message\n"`. -/
def HELP_ERR : List Char := "Could not show help message\n".toList

/-- The fully formatted command: the `snprintf` template
`"fish -c '__fish_print_help %s'"` with the topic substituted for `%s`.
`snprintf` reports the length of exactly this byte string (the NUL
terminator excluded), independent of any truncation. -/
def fmtHelpCmd (c : List Char) : List Char :=
  "fish -c ".toList ++ ['\''] ++ "__fish_print_help ".toList ++ c ++ ['\'']

/-- Contents of the `cmd` buffer after `snprintf`: at most `CMD_LEN - 1`
bytes of the formatted string are stored (the last byte is reserved for the
NUL terminator). -/
def cmdBuffer (c : List Char) : List Char :=
  (fmtHelpCmd c).take (CMD_LEN - 1)

/-- Modelled from the spec: `write_loop` is declared in `common.h` and
defined in `common.cpp`, which is not part of this source tree.  Per the
spec it is the reliable byte-writer: it loops over partial writes, calling
the underlying `write` until every byte of the buffer has been written or a
hard I/O error stops it.  The sink behaviour is given as the list of byte
counts the successive `write` calls accept (the list ending models the sink
failing hard); the result is the list of chunks actually written together
with the bytes still unwritten when the responses ran out. -/
def write_loop : List Nat → List Char → List (List Char) × List Char
  | [], buff => ([], buff)
  | r :: rest, buff =>
    if buff = [] then ([], [])
    else
      let k := min r buff.length
      let res := write_loop rest (buff.drop k)
      (buff.take k :: res.1, res.2)

/-- The externally observable effects of one `print_help` call:
the command strings handed to `system`, the buffers handed to `write_loop`
on file descriptor 2, and the individual `write` chunks that reached the
standard-error stream. -/
structure Effects where
  execCalls : List (List Char)
  writeLoopBuffers : List (List Char)
  stderrWrites : List (List Char)
  deriving DecidableEq

/-- Shallow embedding of `print_help`.  `exec` is the command executor (the
`system` call, `-1` meaning launch failure), `sink` the standard-error sink
behaviour consumed by `write_loop`, and `c` the topic bytes.  The first
component is the effect trace; the second is the value returned to the
caller (the C function returns `void`). -/
def print_help (exec : List Char → Int) (sink : List Nat) (c : List Char) :
    Effects × Unit :=
  let printed := (fmtHelpCmd c).length
  let cmd := cmdBuffer c
  if printed < CMD_LEN then
    if exec cmd = -1 then
      (⟨[cmd], [HELP_ERR], (write_loop sink HELP_ERR).1⟩, ())
    else
      (⟨[cmd], [], []⟩, ())
  else
    (⟨[], [], []⟩, ())

/-- A concrete executor that always launches successfully. -/
def execOk : List Char → Int := fun _ => 0

/-- A concrete executor that always reports launch failure. -/
def execFail : List Char → Int := fun _ => -1

/-- A concrete executor that launches successfully but whose child exits
with the non-zero status 256. -/
def execNonzeroExit : List Char → Int := fun _ => 256

/-- A concrete executor agreeing with `execOk` on every non-empty command
but differing on the empty one. -/
def execOkAlt : List Char → Int := fun s => if s = [] then 7 else 0

/-- The fixed template contributes exactly 28 bytes around the topic. -/
theorem fmtHelpCmd_length (c : List Char) :
    (fmtHelpCmd c).length = 28 + c.length := by
  simp [fmtHelpCmd]
  omega

/-- When the formatted command fits, `snprintf` stores it untruncated. -/
theorem cmdBuffer_eq_of_lt {c : List Char}
    (h : (fmtHelpCmd c).length < CMD_LEN) : cmdBuffer c = fmtHelpCmd c := by
  unfold cmdBuffer
  exact List.take_of_length_le (by omega)

/-- The chunks `write_loop` writes, concatenated, followed by the bytes it
left unwritten, recover the buffer it was handed. -/
theorem write_loop_join (resps : List Nat) (buff : List Char) :
    (write_loop resps buff).1.flatten ++ (write_loop resps buff).2 = buff := by
  induction resps generalizing buff with
  | nil => simp [write_loop]
  | cons r rest ih =>
    by_cases hb : buff = []
    · simp [write_loop, hb]
    · simp only [write_loop, if_neg hb, List.flatten_cons, List.append_assoc, ih]
      exact List.take_append_drop _ buff

/-- Executor is skipped whenever the formatted length reaches the capacity. -/
theorem print_help_skip {c : List Char} (exec : List Char → Int)
    (sink : List Nat) (h : CMD_LEN ≤ (fmtHelpCmd c).length) :
    (print_help exec sink c).1 = ⟨[], [], []⟩ := by
  simp [print_help, Nat.not_lt.mpr h]

/-- The executor is invoked exactly when the formatted length is below the
capacity. -/
theorem execCalls_ne_nil_iff (exec : List Char → Int) (sink : List Nat)
    (c : List Char) :
    (print_help exec sink c).1.execCalls ≠ [] ↔
      (fmtHelpCmd c).length < CMD_LEN := by
  by_cases h : (fmtHelpCmd c).length < CMD_LEN
  · by_cases hx : exec (cmdBuffer c) = -1 <;> simp [print_help, h, hx]
  · simp [print_help, h]

/-- C1 (normal path): for every topic whose formatted command fits within
the 1024-byte buffer capacity and an executor that succeeds at launching,
`print_help` invokes the executor exactly once, with the command string
equal to the fixed template with the topic substituted, and writes nothing
to standard error. -/
theorem C1_normal_path (exec : List Char → Int) (sink : List Nat)
    (c : List Char) (hfit : (fmtHelpCmd c).length < CMD_LEN)
    (hok : exec (cmdBuffer c) ≠ -1) :
    (print_help exec sink c).1.execCalls = [fmtHelpCmd c] ∧
    (print_help exec sink c).1.writeLoopBuffers = [] ∧
    (print_help exec sink c).1.stderrWrites = [] := by
  have hok2 : exec (fmtHelpCmd c) ≠ -1 := by
    rwa [cmdBuffer_eq_of_lt hfit] at hok
  simp [print_help, hfit, hok2, cmdBuffer_eq_of_lt hfit]

/-- Witness for C1 at topic `ls` with an always-succeeding executor. -/
theorem C1_normal_path_witness :
    (fmtHelpCmd "ls".toList).length < CMD_LEN ∧
    execOk (cmdBuffer "ls".toList) ≠ -1 ∧
    (print_help execOk [] "ls".toList).1.execCalls = [fmtHelpCmd "ls".toList] :=
  ⟨by decide, by decide,
    (C1_normal_path execOk [] "ls".toList (by decide) (by decide)).1⟩

/-- C2 (overflow path): for every topic long enough that the fully
formatted command exceeds the 1024-byte capacity, `print_help` invokes the
executor zero times and writes nothing to standard error. -/
theorem C2_overflow_path (exec : List Char → Int) (sink : List Nat)
    (c : List Char) (h : CMD_LEN < (fmtHelpCmd c).length) :
    (print_help exec sink c).1.execCalls = [] ∧
    (print_help exec sink c).1.writeLoopBuffers = [] ∧
    (print_help exec sink c).1.stderrWrites = [] := by
  rw [print_help_skip exec sink (le_of_lt h)]
  exact ⟨rfl, rfl, rfl⟩

/-- Witness for C2 at a 997-byte topic (formatted length 1025). -/
theorem C2_overflow_path_witness :
    CMD_LEN < (fmtHelpCmd (List.replicate 997 'a')).length ∧
    (print_help execOk [] (List.replicate 997 'a')).1.execCalls = [] :=
  ⟨by rw [fmtHelpCmd_length, List.length_replicate]; decide,
    (C2_overflow_path execOk [] (List.replicate 997 'a')
      (by rw [fmtHelpCmd_length, List.length_replicate]; decide)).1⟩

/-- C3 (launch failure): for every topic within capacity, if the executor
reports launch failure then `print_help` hands exactly the 28-byte
diagnostic `HELP_ERR` to the retry-on-partial-write primitive, and whenever
the primitive runs to completion the concatenation of its write calls (one
or more) equals the full message. -/
theorem C3_launch_failure (exec : List Char → Int) (sink : List Nat)
    (c : List Char) (hfit : (fmtHelpCmd c).length < CMD_LEN)
    (hfail : exec (cmdBuffer c) = -1)
    (hdone : (write_loop sink HELP_ERR).2 = []) :
    (print_help exec sink c).1.writeLoopBuffers = [HELP_ERR] ∧
    HELP_ERR.length = 28 ∧
    (print_help exec sink c).1.stderrWrites.flatten = HELP_ERR ∧
    (print_help exec sink c).1.stderrWrites ≠ [] := by
  have hpe : (print_help exec sink c).1 =
      ⟨[cmdBuffer c], [HELP_ERR], (write_loop sink HELP_ERR).1⟩ := by
    simp [print_help, hfit, hfail]
  have hjoin : (write_loop sink HELP_ERR).1.flatten = HELP_ERR := by
    have h := write_loop_join sink HELP_ERR
    rwa [hdone, List.append_nil] at h
  refine ⟨by rw [hpe], by decide, by rw [hpe]; exact hjoin, ?_⟩
  rw [hpe]
  intro hnil
  simp only at hnil
  rw [hnil] at hjoin
  simp [HELP_ERR] at hjoin

/-- Witness for C3: topic `ls`, failing executor, a sink accepting all 28
bytes in one call. -/
theorem C3_launch_failure_witness :
    (fmtHelpCmd "ls".toList).length < CMD_LEN ∧
    execFail (cmdBuffer "ls".toList) = -1 ∧
    (write_loop [28] HELP_ERR).2 = [] ∧
    (print_help execFail [28] "ls".toList).1.stderrWrites.flatten = HELP_ERR :=
  ⟨by decide, by decide, by decide,
    (C3_launch_failure execFail [28] "ls".toList (by decide) (by decide)
      (by decide)).2.2.1⟩

/-- C4 (no exit-status inspection): for every topic within capacity, the
diagnostic is handed to the writer if and only if the executor reports
launch failure; on successful launch nothing reaches standard error, and
the run is identical for any two executors that launch successfully,
whatever exit statuses they report. -/
theorem C4_no_exit_status (exec : List Char → Int) (sink : List Nat)
    (c : List Char) (hfit : (fmtHelpCmd c).length < CMD_LEN) :
    ((print_help exec sink c).1.writeLoopBuffers ≠ [] ↔
      exec (cmdBuffer c) = -1) ∧
    (exec (cmdBuffer c) ≠ -1 →
      (print_help exec sink c).1.stderrWrites = [] ∧
      (print_help exec sink c).1.writeLoopBuffers = []) ∧
    (∀ e2 : List Char → Int, exec (cmdBuffer c) ≠ -1 →
      e2 (cmdBuffer c) ≠ -1 → print_help exec sink c = print_help e2 sink c) := by
  refine ⟨?_, ?_, ?_⟩
  · by_cases hx : exec (cmdBuffer c) = -1 <;> simp [print_help, hfit, hx]
  · intro hx
    simp [print_help, hfit, hx]
  · intro e2 hx hx2
    simp [print_help, hfit, hx, hx2]

/-- Witness for C4: topic `ls`, an executor whose child exits with the
non-zero status 256; nothing is written to standard error. -/
theorem C4_no_exit_status_witness :
    (fmtHelpCmd "ls".toList).length < CMD_LEN ∧
    execNonzeroExit (cmdBuffer "ls".toList) ≠ -1 ∧
    (print_help execNonzeroExit [] "ls".toList).1.stderrWrites = [] ∧
    (print_help execNonzeroExit [] "ls".toList).1.writeLoopBuffers = [] :=
  ⟨by decide, by decide,
    ((C4_no_exit_status execNonzeroExit [] "ls".toList (by decide)).2.1
      (by decide)).1,
    ((C4_no_exit_status execNonzeroExit [] "ls".toList (by decide)).2.1
      (by decide)).2⟩

/-- C5 counterexample: for the 996-byte topic the formatted command length
equals the capacity 1024, yet the executor is invoked zero times — refuting
the claim that a formatted length exactly equal to the capacity is treated
as fitting. -/
theorem C5_boundary_counterexample :
    (fmtHelpCmd (List.replicate 996 'a')).length = CMD_LEN ∧
    (print_help execOk [] (List.replicate 996 'a')).1.execCalls = [] := by
  constructor
  · rw [fmtHelpCmd_length, List.length_replicate]; decide
  · rw [print_help_skip execOk []
      (by rw [fmtHelpCmd_length, List.length_replicate]; decide)]

/-- C5 amended: the boundary is exclusive, not inclusive: the executor is
invoked exactly when the formatted command length is strictly less than the
capacity 1024 — so a formatted length of capacity minus one (1023) fits and
a formatted length equal to the capacity (1024) is skipped. -/
theorem C5_boundary (exec : List Char → Int) (sink : List Nat)
    (c : List Char) :
    (print_help exec sink c).1.execCalls ≠ [] ↔
      (fmtHelpCmd c).length < CMD_LEN :=
  execCalls_ne_nil_iff exec sink c

/-- C6 (fire-and-forget): the value `print_help` returns to its caller is
the unit value whatever the topic, the executor outcome and the writer
outcome: the result type carries no error information and no failure is
surfaced. -/
theorem C6_fire_and_forget (e1 e2 : List Char → Int) (s1 s2 : List Nat)
    (c1 c2 : List Char) :
    (print_help e1 s1 c1).2 = () ∧
    (print_help e1 s1 c1).2 = (print_help e2 s2 c2).2 :=
  ⟨rfl, rfl⟩

/-- C7 (no truncated command): whenever `print_help` invokes the executor,
the command handed over is the complete untruncated template with the topic
substituted. -/
theorem C7_no_truncated_command (exec : List Char → Int) (sink : List Nat)
    (c x : List Char) (hx : x ∈ (print_help exec sink c).1.execCalls) :
    x = fmtHelpCmd c := by
  by_cases h : (fmtHelpCmd c).length < CMD_LEN
  · have hb := cmdBuffer_eq_of_lt h
    by_cases hx2 : exec (cmdBuffer c) = -1 <;>
      simp [print_help, h, hx2] at hx <;> exact hx.trans hb
  · simp [print_help, h] at hx

/-- Witness for C7 at topic `ls`. -/
theorem C7_no_truncated_command_witness :
    fmtHelpCmd "ls".toList ∈ (print_help execOk [] "ls".toList).1.execCalls ∧
    fmtHelpCmd "ls".toList = fmtHelpCmd "ls".toList :=
  ⟨by decide,
    C7_no_truncated_command execOk [] "ls".toList (fmtHelpCmd "ls".toList)
      (by decide)⟩

/-- C8 (at most once): a single `print_help` call invokes the executor at
most once, for every topic and every collaborator behaviour. -/
theorem C8_at_most_once (exec : List Char → Int) (sink : List Nat)
    (c : List Char) :
    (print_help exec sink c).1.execCalls.length ≤ 1 := by
  by_cases h : (fmtHelpCmd c).length < CMD_LEN
  · by_cases hx : exec (cmdBuffer c) = -1 <;> simp [print_help, h, hx]
  · simp [print_help, h]

/-- C9 (implicit threshold): the template contributes exactly 28 bytes, the
executor is invoked if and only if the topic is at most 995 bytes long (so
that 28 + len < 1024), and the empty topic is accepted and executed. -/
theorem C9_threshold (exec : List Char → Int) (sink : List Nat)
    (c : List Char) :
    ((print_help exec sink c).1.execCalls ≠ [] ↔ c.length ≤ 995) ∧
    (fmtHelpCmd c).length = 28 + c.length ∧
    (print_help exec sink []).1.execCalls = [fmtHelpCmd []] := by
  refine ⟨?_, fmtHelpCmd_length c, ?_⟩
  · rw [execCalls_ne_nil_iff, fmtHelpCmd_length]
    unfold CMD_LEN
    omega
  · have hfit : (fmtHelpCmd ([] : List Char)).length < CMD_LEN := by
      simp [fmtHelpCmd_length, CMD_LEN]
    have hb := cmdBuffer_eq_of_lt hfit
    by_cases hx : exec (fmtHelpCmd []) = -1 <;>
      simp [print_help, hfit, hx, hb]

/-- C10 (determinism): two runs on the same topic whose executors respond
identically on the command actually handed over, with the same sink
behaviour, produce identical effect traces and return values. -/
theorem C10_deterministic (e1 e2 : List Char → Int) (sink : List Nat)
    (c : List Char) (h : e1 (cmdBuffer c) = e2 (cmdBuffer c)) :
    print_help e1 sink c = print_help e2 sink c := by
  simp only [print_help]
  rw [h]

/-- Witness for C10: two executors that differ on commands never issued but
agree on the issued one produce identical runs. -/
theorem C10_deterministic_witness :
    execOk (cmdBuffer "ls".toList) = execOkAlt (cmdBuffer "ls".toList) ∧
    print_help execOk [] "ls".toList = print_help execOkAlt [] "ls".toList :=
  ⟨by decide, C10_deterministic execOk execOkAlt [] "ls".toList (by decide)⟩

end PrintHelp
